import Mathlib

/-!
Shallow embedding of the AI assistant module (`js/ai.js`) of the repository:
context truncation for auto-completion, the completion cache, the response
parser for completion suggestions, the chat completion client, and the chat
session handlers (send, suggest-fix and the selection widget).  JavaScript
strings are modelled as Lean strings (lists of characters), JavaScript
exceptions as `Except`, and the awaited network call inside each handler as
an explicit outcome parameter.
-/

/-- The set of characters matched by JavaScript's regexp class `\s`,
which is also the set removed by `String.prototype.trim`. -/
def isJsWs (c : Char) : Bool :=
  c = ' ' || c = '\t' || c = '\n' || c = '\r' || c = '\x0b' || c = '\x0c' ||
  c = ' ' || c = '﻿' || c = ' ' ||
  (' ' ≤ c && c ≤ ' ') ||
  c = ' ' || c = ' ' || c = ' ' || c = ' ' || c = '　'

/-- JavaScript `String.prototype.trim`. -/
def jsTrim (s : String) : String :=
  String.mk (((s.data.dropWhile isJsWs).reverse.dropWhile isJsWs).reverse)

/-- The constant `MAX_CONTEXT_LENGTH` of `js/ai.js` (line 5). -/
def MAX_CONTEXT_LENGTH : Nat := 2000

/-- `textUntilPosition.slice(-MAX_CONTEXT_LENGTH)` (line 434 of `js/ai.js`):
the trailing window of the pre-cursor text; the whole string when it is not
longer than the window. -/
def truncateContext (s : String) : String :=
  String.mk (s.data.drop (s.data.length - MAX_CONTEXT_LENGTH))

/-- JSON values, as produced by `JSON.parse`.  Numbers keep their source
lexeme: the module only ever asks whether a value is a string, so the numeric
interpretation is never needed. -/
inductive Json where
  | null
  | bool (b : Bool)
  | num (lexeme : String)
  | str (s : String)
  | arr (elems : List Json)
  | obj (fields : List (String × Json))

/-- Insignificant whitespace of the JSON grammar. -/
def skipJsonWs : List Char → List Char
  | [] => []
  | c :: r => if c = ' ' || c = '\t' || c = '\n' || c = '\r' then skipJsonWs r else c :: r

/-- The longest leading run of decimal digits. -/
def spanDigits : List Char → (List Char × List Char)
  | [] => ([], [])
  | c :: r =>
    if c.isDigit then
      let (ds, r2) := spanDigits r
      (c :: ds, r2)
    else ([], c :: r)

/-- The optional fraction part of a JSON number. -/
def parseFrac : List Char → Option (List Char × List Char)
  | '.' :: r =>
    match spanDigits r with
    | ([], _) => none
    | (ds, r2) => some ('.' :: ds, r2)
  | s => some ([], s)

/-- The optional exponent part of a JSON number. -/
def parseExpPart : List Char → Option (List Char × List Char)
  | [] => some ([], [])
  | c :: r =>
    if c = 'e' || c = 'E' then
      let (sign, r2) : List Char × List Char :=
        match r with
        | s2 :: r3 => if s2 = '+' || s2 = '-' then ([s2], r3) else ([], s2 :: r3)
        | [] => ([], [])
      match spanDigits r2 with
      | ([], _) => none
      | (ds, r3) => some (c :: (sign ++ ds), r3)
    else some ([], c :: r)

/-- A JSON number: `-? (0 | [1-9][0-9]*) frac? exp?`.  Returns the lexeme and
the remaining input. -/
def parseNumber (s : List Char) : Option (String × List Char) :=
  let (negPart, s1) : List Char × List Char :=
    match s with
    | '-' :: r => (['-'], r)
    | _ => ([], s)
  match s1 with
  | [] => none
  | c :: r =>
    if c = '0' || (c.isDigit && c ≠ '0') then
      let (intRest, r1) : List Char × List Char :=
        if c = '0' then ([], r) else spanDigits r
      match parseFrac r1 with
      | none => none
      | some (frac, r2) =>
        match parseExpPart r2 with
        | none => none
        | some (ex, r3) => some (String.mk (negPart ++ c :: intRest ++ frac ++ ex), r3)
    else none

/-- Value of one hexadecimal digit, by character code: digits are codes
48-57, lowercase a-f are 97-102, uppercase A-F are 65-70. -/
def hexDigitVal (c : Char) : Option Nat :=
  let n := c.toNat
  if 48 ≤ n && n ≤ 57 then some (n - 48)
  else if 97 ≤ n && n ≤ 102 then some (n - 87)
  else if 65 ≤ n && n ≤ 70 then some (n - 55)
  else none

/-- The body of a JSON string, after the opening quote: returns the decoded
characters and the input after the closing quote.  JavaScript decodes `\u`
escapes to UTF-16 units; we use Unicode scalars, `Char.ofNat` mapping
invalid code points to the null character. -/
def parseStringRest (fuel : Nat) (s : List Char) : Option (List Char × List Char) :=
  match fuel with
  | 0 => none
  | fuel' + 1 =>
    match s with
    | [] => none
    | c :: r =>
      if c = '"' then some ([], r)
      else if c = '\\' then
        match r with
        | [] => none
        | e :: r2 =>
          if e = '"' || e = '\\' || e = '/' then
            (parseStringRest fuel' r2).map (fun p => (e :: p.1, p.2))
          else if e = 'b' then (parseStringRest fuel' r2).map (fun p => ('\x08' :: p.1, p.2))
          else if e = 'f' then (parseStringRest fuel' r2).map (fun p => ('\x0c' :: p.1, p.2))
          else if e = 'n' then (parseStringRest fuel' r2).map (fun p => ('\n' :: p.1, p.2))
          else if e = 'r' then (parseStringRest fuel' r2).map (fun p => ('\r' :: p.1, p.2))
          else if e = 't' then (parseStringRest fuel' r2).map (fun p => ('\t' :: p.1, p.2))
          else if e = 'u' then
            match r2 with
            | h1 :: h2 :: h3 :: h4 :: r3 =>
              match hexDigitVal h1, hexDigitVal h2, hexDigitVal h3, hexDigitVal h4 with
              | some a, some b, some c2, some d =>
                (parseStringRest fuel' r3).map
                  (fun p => (Char.ofNat (((a * 16 + b) * 16 + c2) * 16 + d) :: p.1, p.2))
              | _, _, _, _ => none
            | _ => none
          else none
      else if c.toNat < 0x20 then none
      else (parseStringRest fuel' r).map (fun p => (c :: p.1, p.2))

mutual

/-- One JSON value (with leading whitespace), returning the remaining input. -/
def parseValue (fuel : Nat) (s : List Char) : Option (Json × List Char) :=
  match fuel with
  | 0 => none
  | fuel' + 1 =>
    match skipJsonWs s with
    | [] => none
    | c :: r =>
      if c = '"' then
        match parseStringRest (r.length + 1) r with
        | some (cs, rr) => some (.str (String.mk cs), rr)
        | none => none
      else if c = '[' then parseArrayItems fuel' r true []
      else if c = '{' then parseObjItems fuel' r true []
      else if c = 't' then
        match r with
        | 'r' :: 'u' :: 'e' :: rr => some (.bool true, rr)
        | _ => none
      else if c = 'f' then
        match r with
        | 'a' :: 'l' :: 's' :: 'e' :: rr => some (.bool false, rr)
        | _ => none
      else if c = 'n' then
        match r with
        | 'u' :: 'l' :: 'l' :: rr => some (.null, rr)
        | _ => none
      else
        match parseNumber (c :: r) with
        | some (lex, rr) => some (.num lex, rr)
        | none => none

/-- The items of a JSON array, after the opening bracket (`isFirst` is true)
or after a comma. -/
def parseArrayItems (fuel : Nat) (s : List Char) (isFirst : Bool) (acc : List Json) :
    Option (Json × List Char) :=
  match fuel with
  | 0 => none
  | fuel' + 1 =>
    match skipJsonWs s, isFirst with
    | ']' :: rr, true => some (.arr [], rr)
    | s', _ =>
      match parseValue fuel' s' with
      | none => none
      | some (v, r2) =>
        match skipJsonWs r2 with
        | ',' :: r3 => parseArrayItems fuel' r3 false (acc ++ [v])
        | ']' :: r3 => some (.arr (acc ++ [v]), r3)
        | _ => none

/-- The fields of a JSON object, after the opening brace (`isFirst` is true)
or after a comma. -/
def parseObjItems (fuel : Nat) (s : List Char) (isFirst : Bool)
    (acc : List (String × Json)) : Option (Json × List Char) :=
  match fuel with
  | 0 => none
  | fuel' + 1 =>
    match skipJsonWs s, isFirst with
    | '\x7d' :: rr, true => some (.obj [], rr)
    | s', _ =>
      match s' with
      | '"' :: r =>
        match parseStringRest (r.length + 1) r with
        | none => none
        | some (key, r2) =>
          match skipJsonWs r2 with
          | ':' :: r3 =>
            match parseValue fuel' r3 with
            | none => none
            | some (v, r4) =>
              match skipJsonWs r4 with
              | ',' :: r5 => parseObjItems fuel' r5 false (acc ++ [(String.mk key, v)])
              | '\x7d' :: r5 => some (.obj (acc ++ [(String.mk key, v)]), r5)
              | _ => none
          | _ => none
      | _ => none

end

/-- `JSON.parse`: a complete JSON document, with nothing but whitespace after
the value.  The fuel is generous: nesting consumes at least one character per
two recursive calls, so `4 * length + 16` can never run out. -/
def jsonParse (s : String) : Option Json :=
  match parseValue (4 * s.length + 16) s.data with
  | some (v, rest) => if skipJsonWs rest = [] then some v else none
  | none => none

/-- The shortest run of characters ending at the first `']'`, used by the
lazy part of the regexp `/\[.*?\]/s`. -/
def upToClose : List Char → Option (List Char)
  | [] => none
  | c :: r => if c = ']' then some [']'] else (upToClose r).map (fun t => c :: t)

/-- `rawText.match(/\[.*?\]/s)`: the substring from the first `'['` to the
first `']'` after it, crossing newlines.  When no `']'` follows the first
`'['` none follows any later `'['` either, so the whole match fails. -/
def firstBracketMatch : List Char → Option (List Char)
  | [] => none
  | c :: r => if c = '[' then (upToClose r).map (fun t => '[' :: t) else firstBracketMatch r

/-- The character class stripped from line ends by the fallback of
`parseCompletionResponse` (line 519 of `js/ai.js`): the regexp
`/^[\s\-*>"']+|[\s\-*>"']+$/g`. -/
def isDecorChar (c : Char) : Bool :=
  isJsWs c || c = '-' || c = '*' || c = '>' || c = '"' || c = '\''

/-- One line of the fallback path: strip the leading and trailing runs of
decoration characters, then `trim` (a no-op after the strip, kept faithful
to the source). -/
def cleanLine (line : String) : String :=
  jsTrim (String.mk (((line.data.dropWhile isDecorChar).reverse.dropWhile isDecorChar).reverse))

/-- `rawText.split("\n")` on the underlying characters.  The result is never
empty: splitting the empty string yields one empty piece, as in JavaScript. -/
def splitNewline : List Char → List (List Char)
  | [] => [[]]
  | c :: r =>
    if c = '\n' then [] :: splitNewline r
    else
      match splitNewline r with
      | [] => [[c]]
      | l :: ls => (c :: l) :: ls

/-- The line-based fallback of `parseCompletionResponse` (lines 516-522):
split on newlines, clean each line, drop empty lines, keep the first 5. -/
def fallbackLines (rawText : String) : List String :=
  (((splitNewline rawText.data).map (fun l => cleanLine (String.mk l))).filter
    (fun l => 0 < l.length)).take 5

/-- The string elements of a parsed JSON array, in order:
`parsed.filter((s) => typeof s === "string")`. -/
def jsonStringElems (xs : List Json) : List String :=
  xs.filterMap (fun j => match j with | .str s => some s | _ => none)

/-- The try-block of `parseCompletionResponse` (lines 507-522).  A located
bracket substring that `JSON.parse` rejects raises, as does `.filter` on a
non-array value (unreachable: the substring starts with a bracket); the
fallback runs only when no bracket substring was located. -/
def tryParseCompletion (rawText : String) : Except String (List String) :=
  match firstBracketMatch rawText.data with
  | some m =>
    match jsonParse (String.mk m) with
    | some (.arr xs) => .ok (jsonStringElems xs)
    | some _ => .error "TypeError: parsed.filter is not a function"
    | none => .error "SyntaxError: Unexpected token in JSON"
  | none => .ok (fallbackLines rawText)

/-- `parseCompletionResponse` (lines 506-527): the try-block, with any raised
exception caught and converted to an empty list. -/
def parseCompletionResponse (rawText : String) : List String :=
  match tryParseCompletion rawText with
  | .ok suggestions => suggestions
  | .error _ => []

/-- A JavaScript `Error` value, as observed by the module: its message. -/
structure JsError where
  message : String
deriving DecidableEq

/-- The `content` of `data?.choices?.[0]?.message?.content`, innermost level. -/
structure ResponseMessage where
  content : Option String
deriving DecidableEq

/-- One element of the `choices` array of the endpoint's response body. -/
structure ResponseChoice where
  message : Option ResponseMessage
deriving DecidableEq

/-- The JSON body of a chat completion response.  Absent layers of the
optional chain `data?.choices?.[0]?.message?.content` are `none`. -/
structure ChatCompletionData where
  choices : Option (List ResponseChoice)
deriving DecidableEq

/-- The optional chain `data?.choices?.[0]?.message?.content`. -/
def contentOf (d : ChatCompletionData) : Option String :=
  match d.choices with
  | none => none
  | some cs =>
    match cs.head? with
    | none => none
    | some ch =>
      match ch.message with
      | none => none
      | some m => m.content

/-- JavaScript `x || fallback` on an optionally-absent string: the fallback
replaces both an absent and an empty (falsy) string. -/
def jsOrElse (x : Option String) (fallback : String) : String :=
  match x with
  | some s => if s = "" then fallback else s
  | none => fallback

deriving instance DecidableEq for Except

/-- The HTTP response observed by `fetchChatCompletion`: `ok`, `status`,
`statusText` and the result of `response.json()` (which can itself reject). -/
structure HttpResponse where
  ok : Bool
  status : Nat
  statusText : String
  jsonBody : Except String ChatCompletionData
deriving DecidableEq

/-- Outcome of `fetch`: either a network-level rejection or a response. -/
inductive FetchOutcome where
  | networkError (e : JsError)
  | response (r : HttpResponse)
deriving DecidableEq

/-- The message of the error thrown on a non-success status (line 31):
`API Error: ${response.status} ${response.statusText}`. -/
def apiErrorMessage (status : Nat) (statusText : String) : String :=
  "API Error: " ++ toString status ++ " " ++ statusText

/-- `fetchChatCompletion` (lines 13-39): throw on a non-success status,
rethrow any network or body-parsing rejection unchanged (the catch logs and
rethrows), and on success return the first choice's message content, with a
literal fallback when that content is absent or empty. -/
def fetchChatCompletion : FetchOutcome → Except JsError String
  | .networkError e => .error e
  | .response r =>
    if !r.ok then .error ⟨apiErrorMessage r.status r.statusText⟩
    else
      match r.jsonBody with
      | .error e => .error ⟨e⟩
      | .ok data => .ok (jsOrElse (contentOf data) "No response from AI.")

/-- A monaco completion range (line/column bounds of the word being typed). -/
structure MonacoRange where
  startLineNumber : Nat
  endLineNumber : Nat
  startColumn : Nat
  endColumn : Nat
deriving DecidableEq

/-- One completion item built by `provideCompletionItems` (lines 450-456).
`kind` is the constant `monaco.languages.CompletionItemKind.Text` and is
omitted; `documentation` is the constant string stored with each item. -/
structure CompletionItem where
  label : String
  insertText : String
  documentation : String
  range : MonacoRange
deriving DecidableEq

/-- The item built for one suggestion string. -/
def mkCompletionItem (suggestion : String) (range : MonacoRange) : CompletionItem :=
  { label := suggestion
    insertText := suggestion
    documentation := "AI Suggestion"
    range := range }

/-- The module-level `completionCache` object, as a key-value list: an
assignment prepends, `List.lookup` finds the most recent assignment. -/
abbrev CompletionCache := List (String × List CompletionItem)

/-- `fetchAutoCompletionSuggestions` (lines 488-499), applied to the outcome
of its awaited `fetchChatCompletion` call: parse the raw response, and turn
any rejection into an empty list (the catch logs and returns `[]`). -/
def fetchAutoCompletionSuggestions (remote : Except JsError String) : List String :=
  match remote with
  | .ok rawResponse => parseCompletionResponse rawResponse
  | .error _ => []

/-- The outcome of one `provideCompletionItems` call: the suggestion list
returned to the editor, the completion cache afterwards, and whether the
remote client was invoked. -/
structure ProviderOutcome where
  suggestions : List CompletionItem
  cache : CompletionCache
  remoteCalled : Bool
deriving DecidableEq

/-- `provideCompletionItems` (lines 417-464): truncate the pre-cursor text,
return the cached items (with the range refreshed) on a hit, and otherwise
fetch, build the items, store them and return them.  `remote` is the outcome
of the awaited `fetchChatCompletion` call inside
`fetchAutoCompletionSuggestions`, which itself never rejects, so the
provider's own catch is unreachable and the miss path always stores. -/
def provideCompletionItems (cache : CompletionCache) (textUntilPosition : String)
    (range : MonacoRange) (remote : Except JsError String) : ProviderOutcome :=
  let truncatedContext := truncateContext textUntilPosition
  match List.lookup truncatedContext cache with
  | some cachedItems =>
    { suggestions := cachedItems.map (fun item => { item with range := range })
      cache := cache
      remoteCalled := false }
  | none =>
    let suggestions := fetchAutoCompletionSuggestions remote
    let items := suggestions.map (fun s => mkCompletionItem s range)
    { suggestions := items
      cache := (truncatedContext, items) :: cache
      remoteCalled := true }

/-- One transcript entry appended by `addChatMessage`: its bubble content and
whether it is a user message (the timestamp is presentation only). -/
structure ChatMessage where
  content : String
  isUser : Bool
deriving DecidableEq

/-- The shared page state the three chat handlers act on: the transcript
(the `.chat-messages` container), the busy indicator set by
`setLoadingState`, the panel input field, the selection widget's question
field, and the module-level completion cache (which no chat handler ever
touches). -/
structure UIState where
  messages : List ChatMessage
  busy : Bool
  input : String
  widgetInput : String
  cache : CompletionCache
deriving DecidableEq

/-- `replaceLastBubble` (lines 314-316) and the widget's `:last-child`
update: replace the content of the last transcript element, if any. -/
def replaceLast (msgs : List ChatMessage) (newContent : String) : List ChatMessage :=
  match msgs.getLast? with
  | none => []
  | some m => msgs.dropLast ++ [{ m with content := newContent }]

/-- The provisional placeholder appended by `handleSend` and the widget. -/
def PROCESSING_MSG : String := "<p>Processing your request...</p>"

/-- The provisional placeholder appended by `handleSuggestFix`. -/
def ANALYZING_MSG : String := "<p>Analyzing the error and suggesting fixes...</p>"

/-- The error bubble of `handleSend` and of the selection widget (the source
file stores the warning sign as the bytes rendered here). -/
def errorBubbleHtml (msg : String) : String :=
  "<div class=\"error-message\">‚ö†Ô∏è Error: " ++ msg ++ "</div>"

/-- The message appended by `handleSuggestFix` on success (lines 364-369), a
template literal with its layout newlines and indentation. -/
def fixSuccessHtml (errorText fix : String) : String :=
  "\n        <p>Compilation Error:</p>\n        <pre><code>" ++ errorText ++
    "</code></pre>\n        <p><strong>AI Suggestion:</strong></p>\n        " ++ fix ++
    "\n      "

/-- The message appended by `handleSuggestFix` on failure (lines 371-373). -/
def fixFailureHtml (msg : String) : String :=
  "<div class=\"error-message\"><strong>Failed to fetch fix suggestion:</strong> " ++
    msg ++ "</div>"

/-- The user message shown by the selection widget (line 195). -/
def widgetUserHtml (userQuestion selectedText : String) : String :=
  "<p>" ++ userQuestion ++ "</p><pre><code>" ++ selectedText ++ "</code></pre>"

/-- The content the provisional bubble ends up with on the send and widget
paths: the response on success, the error bubble on failure. -/
def sendResolved : Except JsError String → String
  | .ok response => response
  | .error err => errorBubbleHtml err.message

/-- The content of the message `handleSuggestFix` appends at resolution:
the suggestion block on success, the failure notice on failure. -/
def fixResolved (errorText : String) : Except JsError String → String
  | .ok fix => fixSuccessHtml errorText fix
  | .error err => fixFailureHtml err.message

/-- `handleSend` (lines 319-344), with the awaited
`fetchCodeAssistantResponse` outcome as parameter.  Returns the state after
the handler and whether the pipeline was invoked.  Guard: an input empty
after trimming returns at once.  Otherwise: append the user message, clear
the input, set the busy indicator, append the provisional message, replace
the last bubble with the response or with an error bubble, and finally clear
the busy indicator. -/
def handleSend (st : UIState) (fetchResult : Except JsError String) : UIState × Bool :=
  let userQuestion := jsTrim st.input
  if userQuestion = "" then (st, false)
  else
    let st1 : UIState := { st with
      messages := st.messages ++ [{ content := userQuestion, isUser := true }]
      input := "" }
    let st2 : UIState := { st1 with
      busy := true
      messages := st1.messages ++ [{ content := PROCESSING_MSG, isUser := false }] }
    let st3 : UIState :=
      match fetchResult with
      | .ok aiResponse => { st2 with messages := replaceLast st2.messages aiResponse }
      | .error err =>
        { st2 with messages := replaceLast st2.messages (errorBubbleHtml err.message) }
    ({ st3 with busy := false }, true)

/-- `handleSuggestFix` (lines 347-377), with the compiler-error accessor's
result and the awaited `fetchCompilationFixSuggestion` outcome as
parameters.  Guard: an empty (falsy) error text returns at once.  Otherwise:
set the busy indicator, append the provisional message, append a new message
with the suggestion or the failure notice, and finally clear the busy
indicator. -/
def handleSuggestFix (st : UIState) (errorText : String)
    (fetchResult : Except JsError String) : UIState × Bool :=
  if errorText = "" then (st, false)
  else
    let st1 : UIState := { st with
      busy := true
      messages := st.messages ++ [{ content := ANALYZING_MSG, isUser := false }] }
    let st2 : UIState :=
      match fetchResult with
      | .ok fix =>
        { st1 with
          messages := st1.messages ++ [{ content := fixSuccessHtml errorText fix, isUser := false }] }
      | .error err =>
        { st1 with
          messages := st1.messages ++ [{ content := fixFailureHtml err.message, isUser := false }] }
    ({ st2 with busy := false }, true)

/-- The selection widget's ask-button handler (lines 185-222), with the
editor's selected text and the awaited `queryHighlightedCode` outcome as
parameters.  Guard: an empty selection or a question empty after trimming
returns at once.  Otherwise: append the user message and the provisional
message, replace the last bubble with the response or an error bubble, and
finally clear the question field.  The busy indicator is never touched on
this path. -/
def widgetAskClick (st : UIState) (selectedText : String)
    (fetchResult : Except JsError String) : UIState × Bool :=
  let userQuestion := jsTrim st.widgetInput
  if selectedText = "" || userQuestion = "" then (st, false)
  else
    let st1 : UIState := { st with
      messages := st.messages ++
        [{ content := widgetUserHtml userQuestion selectedText, isUser := true }] }
    let st2 : UIState := { st1 with
      messages := st1.messages ++ [{ content := PROCESSING_MSG, isUser := false }] }
    let st3 : UIState :=
      match fetchResult with
      | .ok response => { st2 with messages := replaceLast st2.messages response }
      | .error err =>
        { st2 with messages := replaceLast st2.messages (errorBubbleHtml err.message) }
    ({ st3 with widgetInput := "" }, true)

/-- The page state right after `initAssistantPanel` built the panel: empty
transcript, indicator inactive, empty fields, empty completion cache. -/
def initialUIState : UIState :=
  { messages := [], busy := false, input := "", widgetInput := "", cache := [] }

theorem replaceLast_concat (l : List ChatMessage) (m : ChatMessage) (c : String) :
    replaceLast (l ++ [m]) c = l ++ [{ m with content := c }] := by
  simp [replaceLast, List.getLast?_concat, List.dropLast_concat]

theorem upToClose_no_close (mid post : List Char) (h : ']' ∉ mid) :
    upToClose (mid ++ ']' :: post) = some (mid ++ [']']) := by
  induction mid with
  | nil => simp [upToClose]
  | cons c cs ih =>
    have hc : c ≠ ']' := fun e => h (e ▸ List.mem_cons_self c cs)
    have := ih (fun hm => h (List.mem_cons_of_mem _ hm))
    simp [upToClose, hc, this]

theorem firstBracketMatch_append (pre s : List Char) (h : '[' ∉ pre) :
    firstBracketMatch (pre ++ s) = firstBracketMatch s := by
  induction pre with
  | nil => rfl
  | cons c cs ih =>
    have hc : c ≠ '[' := fun e => h (e ▸ List.mem_cons_self c cs)
    have := ih (fun hm => h (List.mem_cons_of_mem _ hm))
    simp [firstBracketMatch, hc, this]

theorem parse_of_located (raw : String) (m : List Char) (xs : List Json)
    (h1 : firstBracketMatch raw.data = some m)
    (h2 : jsonParse (String.mk m) = some (.arr xs)) :
    parseCompletionResponse raw = jsonStringElems xs := by
  simp [parseCompletionResponse, tryParseCompletion, h1, h2]

/-- **C7** — For every pre-cursor text string, the Context Window Manager
returns the string unchanged when its length is at most
`MAX_CONTEXT_LENGTH` (2000), and returns exactly the trailing 2000
characters when it is longer. -/
theorem C7_truncateContext_window :
    (∀ s : String, s.data.length ≤ MAX_CONTEXT_LENGTH → truncateContext s = s) ∧
    (∀ s : String, MAX_CONTEXT_LENGTH < s.data.length →
      (truncateContext s).data = s.data.drop (s.data.length - MAX_CONTEXT_LENGTH) ∧
      (truncateContext s).data.length = MAX_CONTEXT_LENGTH ∧
      s.data = s.data.take (s.data.length - MAX_CONTEXT_LENGTH) ++ (truncateContext s).data) := by
  constructor
  · intro s h
    unfold truncateContext
    rw [Nat.sub_eq_zero_of_le h, List.drop_zero]
  · intro s h
    have hdata : (truncateContext s).data = s.data.drop (s.data.length - MAX_CONTEXT_LENGTH) := by
      simp [truncateContext]
    refine ⟨hdata, ?_, ?_⟩
    · rw [hdata, List.length_drop, Nat.sub_sub_self h.le]
    · rw [hdata, List.take_append_drop]

set_option maxRecDepth 8192 in
theorem C7_truncateContext_window_witness :
    truncateContext (String.mk (List.replicate 3 'a')) = String.mk (List.replicate 3 'a') ∧
    (truncateContext (String.mk (List.replicate 2001 'b'))).data.length = MAX_CONTEXT_LENGTH :=
  ⟨C7_truncateContext_window.1 _ (by simp [MAX_CONTEXT_LENGTH]),
   (C7_truncateContext_window.2 _ (by simp [MAX_CONTEXT_LENGTH])).2.1⟩

/-- **C2** — For every truncated-context key, once a store has occurred for
that key, a second auto-completion request with the identical key returns
the first stored result (its range refreshed to the new request's range)
without invoking the remote client; two requests whose pre-cursor texts
truncate to the same key behave identically, regardless of document content
outside the window.  The first conjunct is the store on a miss, the second
the hit. -/
theorem C2_cache_idempotent :
    (∀ (cache : CompletionCache) (text : String) (range : MonacoRange)
       (remote : Except JsError String),
       List.lookup (truncateContext text) cache = none →
       (provideCompletionItems cache text range remote).cache =
         (truncateContext text,
           (fetchAutoCompletionSuggestions remote).map
             (fun s => mkCompletionItem s range)) :: cache ∧
       (provideCompletionItems cache text range remote).remoteCalled = true) ∧
    (∀ (cache : CompletionCache) (t1 t2 : String) (range : MonacoRange)
       (remote : Except JsError String) (items : List CompletionItem),
       truncateContext t1 = truncateContext t2 →
       List.lookup (truncateContext t1) cache = some items →
       provideCompletionItems cache t2 range remote =
         { suggestions := items.map (fun item => { item with range := range })
           cache := cache
           remoteCalled := false }) := by
  constructor
  · intro cache text range remote h
    simp [provideCompletionItems, h]
  · intro cache t1 t2 range remote items h1 h2
    rw [h1] at h2
    simp [provideCompletionItems, h2]

theorem C2_cache_idempotent_witness :
    ((provideCompletionItems [] "abc" ⟨1, 1, 1, 2⟩ (.ok "[\"s1\"]")).cache =
      (truncateContext "abc",
        (fetchAutoCompletionSuggestions (.ok "[\"s1\"]")).map
          (fun s => mkCompletionItem s ⟨1, 1, 1, 2⟩)) :: [] ∧
     (provideCompletionItems [] "abc" ⟨1, 1, 1, 2⟩ (.ok "[\"s1\"]")).remoteCalled = true) ∧
    provideCompletionItems [("abc", [mkCompletionItem "s1" ⟨1, 1, 1, 2⟩])] "abc"
        ⟨2, 2, 1, 4⟩ (.error ⟨"remote must not be reached"⟩) =
      { suggestions := [mkCompletionItem "s1" ⟨1, 1, 1, 2⟩].map
          (fun item => { item with range := ⟨2, 2, 1, 4⟩ })
        cache := [("abc", [mkCompletionItem "s1" ⟨1, 1, 1, 2⟩])]
        remoteCalled := false } :=
  ⟨C2_cache_idempotent.1 [] "abc" ⟨1, 1, 1, 2⟩ (.ok "[\"s1\"]") (by decide),
   C2_cache_idempotent.2 [("abc", [mkCompletionItem "s1" ⟨1, 1, 1, 2⟩])] "abc" "abc"
     ⟨2, 2, 1, 4⟩ (.error ⟨"remote must not be reached"⟩)
     [mkCompletionItem "s1" ⟨1, 1, 1, 2⟩] rfl (by decide)⟩

/-- **C10 counterexample** — with an empty cache, pre-cursor text `"ctx"` and
a failing remote call, the provider returns no suggestions but *stores* an
empty entry for the key: the cache is not left unchanged, refuting the claim
that an entry is stored only on a successful fetch-and-parse. -/
theorem C10_store_on_failure_counterexample :
    provideCompletionItems [] "ctx" ⟨1, 1, 1, 1⟩ (.error ⟨"network down"⟩) =
      { suggestions := [], cache := [("ctx", [])], remoteCalled := true } ∧
    ([("ctx", [])] : CompletionCache) ≠ [] := by
  constructor
  · decide
  · decide

/-- **C10 (amended)** — on a cache miss whose remote call fails, the provider
returns an empty suggestion list rather than propagating the error, but the
completion cache is *not* left unchanged: the failure is converted to an
empty suggestion list before the store, so an empty entry is stored for the
key and the remote client was invoked. -/
theorem C10_failure_empty_and_stored :
    ∀ (cache : CompletionCache) (text : String) (range : MonacoRange) (e : JsError),
      List.lookup (truncateContext text) cache = none →
      provideCompletionItems cache text range (.error e) =
        { suggestions := []
          cache := (truncateContext text, []) :: cache
          remoteCalled := true } := by
  intro cache text range e h
  simp [provideCompletionItems, h, fetchAutoCompletionSuggestions]

theorem C10_failure_empty_and_stored_witness :
    provideCompletionItems [] "q" ⟨1, 1, 1, 1⟩ (.error ⟨"boom"⟩) =
      { suggestions := []
        cache := (truncateContext "q", []) :: []
        remoteCalled := true } :=
  C10_failure_empty_and_stored [] "q" ⟨1, 1, 1, 1⟩ ⟨"boom"⟩ (by decide)

/-- **C6** — The Completion Client's send operation fails with an error
carrying the HTTP status and status text exactly when the response has a
non-success status (any other failure on a success response is the body
rejection, propagated as-is), propagates any thrown network-level error
unchanged, and on a success response whose first choice's message content
is absent returns a literal fallback string instead of failing. -/
theorem C6_fetchChatCompletion_spec :
    (∀ r : HttpResponse, r.ok = false →
      fetchChatCompletion (.response r) =
        .error ⟨apiErrorMessage r.status r.statusText⟩) ∧
    (∀ (r : HttpResponse) (e : JsError), r.ok = true →
      fetchChatCompletion (.response r) = .error e → r.jsonBody = .error e.message) ∧
    (∀ e : JsError, fetchChatCompletion (.networkError e) = .error e) ∧
    (∀ (r : HttpResponse) (d : ChatCompletionData), r.ok = true →
      r.jsonBody = .ok d → contentOf d = none →
      fetchChatCompletion (.response r) = .ok "No response from AI.") := by
  refine ⟨?_, ?_, ?_, ?_⟩
  · intro r h
    simp [fetchChatCompletion, h]
  · intro r e hok herr
    rcases hjb : r.jsonBody with msg | d
    · rw [fetchChatCompletion, hok, hjb] at herr
      simp at herr
      subst herr
      simp [hjb]
    · rw [fetchChatCompletion, hok, hjb] at herr
      simp at herr
  · intro e
    rfl
  · intro r d hok hjb hc
    simp [fetchChatCompletion, hok, hjb, jsOrElse, hc]

theorem C6_fetchChatCompletion_spec_witness :
    fetchChatCompletion (.response ⟨false, 500, "Internal Server Error", .ok ⟨none⟩⟩) =
      .error ⟨apiErrorMessage 500 "Internal Server Error"⟩ ∧
    (⟨true, 200, "OK", .error "Unexpected end of JSON input"⟩ : HttpResponse).jsonBody =
      .error (JsError.mk "Unexpected end of JSON input").message ∧
    fetchChatCompletion (.networkError ⟨"fetch failed"⟩) = .error ⟨"fetch failed"⟩ ∧
    fetchChatCompletion (.response ⟨true, 200, "OK", .ok ⟨some []⟩⟩) =
      .ok "No response from AI." :=
  ⟨C6_fetchChatCompletion_spec.1 ⟨false, 500, "Internal Server Error", .ok ⟨none⟩⟩ rfl,
   C6_fetchChatCompletion_spec.2.1 ⟨true, 200, "OK", .error "Unexpected end of JSON input"⟩
     ⟨"Unexpected end of JSON input"⟩ rfl (by decide),
   C6_fetchChatCompletion_spec.2.2.1 ⟨"fetch failed"⟩,
   C6_fetchChatCompletion_spec.2.2.2 ⟨true, 200, "OK", .ok ⟨some []⟩⟩ ⟨some []⟩ rfl rfl rfl⟩

/-- **C8** — For every exchange, whether it resolves in success or in error,
the transition to Idle always occurs: the busy indicator is cleared with
unconditional finally semantics (false in the initial panel state and false
after resolution on the send and suggest-fix paths, for both outcomes), and
on the free-form path the input field is cleared; the widget path never
touches the busy indicator (so from an idle start it stays false) and
clears its own question field. -/
theorem C8_busy_cleared_finally :
    initialUIState.busy = false ∧
    (∀ (st : UIState) (r : Except JsError String), jsTrim st.input ≠ "" →
      (handleSend st r).1.busy = false ∧ (handleSend st r).1.input = "") ∧
    (∀ (st : UIState) (errorText : String) (r : Except JsError String), errorText ≠ "" →
      (handleSuggestFix st errorText r).1.busy = false) ∧
    (∀ (st : UIState) (sel : String) (r : Except JsError String),
      (widgetAskClick st sel r).1.busy = st.busy ∧
      (sel ≠ "" → jsTrim st.widgetInput ≠ "" →
        (widgetAskClick st sel r).1.widgetInput = "")) := by
  refine ⟨rfl, ?_, ?_, ?_⟩
  · intro st r h
    cases r <;> simp [handleSend, h]
  · intro st errorText r h
    cases r <;> simp [handleSuggestFix, h]
  · intro st sel r
    constructor
    · by_cases hg : sel = "" || jsTrim st.widgetInput = ""
      · simp [widgetAskClick, hg]
      · cases r <;> simp [widgetAskClick, hg]
    · intro h1 h2
      have hg : (sel = "" || jsTrim st.widgetInput = "") = false := by
        simp [h1, h2]
      cases r <;> simp [widgetAskClick, hg]

theorem C8_busy_cleared_finally_witness :
    ((handleSend ⟨[], false, " q ", "", []⟩ (.ok "ANS")).1.busy = false ∧
      (handleSend ⟨[], false, " q ", "", []⟩ (.ok "ANS")).1.input = "") ∧
    (handleSuggestFix ⟨[], false, "", "", []⟩ "E" (.error ⟨"down"⟩)).1.busy = false ∧
    (widgetAskClick ⟨[], false, "", "ask?", []⟩ "sel" (.ok "OK")).1.busy = false ∧
    (widgetAskClick ⟨[], false, "", "ask?", []⟩ "sel" (.ok "OK")).1.widgetInput = "" := by
  refine ⟨C8_busy_cleared_finally.2.1 ⟨[], false, " q ", "", []⟩ (.ok "ANS") (by decide),
    C8_busy_cleared_finally.2.2.1 ⟨[], false, "", "", []⟩ "E" (.error ⟨"down"⟩) (by decide),
    ?_, ?_⟩
  · have := (C8_busy_cleared_finally.2.2.2 ⟨[], false, "", "ask?", []⟩ "sel" (.ok "OK")).1
    simpa using this
  · exact (C8_busy_cleared_finally.2.2.2 ⟨[], false, "", "ask?", []⟩ "sel" (.ok "OK")).2
      (by decide) (by decide)

/-- **C9** — Submitting suggest-fix when the compiler-error accessor returns
the empty (falsy) text, and submitting a selection query with an empty
selection or a question empty after trimming, each produce no transcript
mutation and no network call: the handler returns with the whole page state
(transcript, busy indicator, input fields and completion cache) unchanged
and the pipeline not invoked. -/
theorem C9_guards_no_effect :
    (∀ (st : UIState) (r : Except JsError String),
      handleSuggestFix st "" r = (st, false)) ∧
    (∀ (st : UIState) (sel : String) (r : Except JsError String),
      sel = "" ∨ jsTrim st.widgetInput = "" →
      widgetAskClick st sel r = (st, false)) := by
  constructor
  · intro st r
    rfl
  · intro st sel r h
    rcases h with h | h <;> simp [widgetAskClick, h]

theorem C9_guards_no_effect_witness :
    handleSuggestFix ⟨[], false, "", "", []⟩ "" (.ok "IGNORED") =
      (⟨[], false, "", "", []⟩, false) ∧
    widgetAskClick ⟨[], false, "", "  ", []⟩ "some code" (.ok "IGNORED") =
      (⟨[], false, "", "  ", []⟩, false) :=
  ⟨C9_guards_no_effect.1 ⟨[], false, "", "", []⟩ (.ok "IGNORED"),
   C9_guards_no_effect.2 ⟨[], false, "", "  ", []⟩ "some code" (.ok "IGNORED")
     (Or.inr (by decide))⟩

theorem replaceLast_append_pair (l : List ChatMessage) (a b : ChatMessage) (c : String) :
    replaceLast (l ++ [a, b]) c = l ++ [a, { b with content := c }] := by
  have h : l ++ [a, b] = (l ++ [a]) ++ [b] := by simp
  rw [h, replaceLast_concat]
  simp

/-- **C5** — For every input string, the Response Parser terminates without
propagating any exception: whenever the embedded try-block raises (is an
`error`), the result is the empty list, and whenever it does not, its value
is returned unchanged — unparseable garbage yields an empty sequence, never
a thrown fault. -/
theorem C5_parse_never_raises :
    (∀ (raw : String) (e : String), tryParseCompletion raw = .error e →
      parseCompletionResponse raw = []) ∧
    (∀ (raw : String) (xs : List String), tryParseCompletion raw = .ok xs →
      parseCompletionResponse raw = xs) := by
  constructor <;> intro raw x h <;> simp [parseCompletionResponse, h]

theorem C5_parse_never_raises_witness :
    parseCompletionResponse "[!]" = [] ∧
    parseCompletionResponse "alpha\nbeta" = ["alpha", "beta"] :=
  ⟨C5_parse_never_raises.1 "[!]" "SyntaxError: Unexpected token in JSON" (by decide),
   C5_parse_never_raises.2 "alpha\nbeta" ["alpha", "beta"] (by decide)⟩

/-- **C3 counterexample** — on `"[?]"` the parser locates the
bracket-substring `"[?]"`, `JSON.parse` rejects it, and the result is the
empty list; line-based extraction would instead have produced `["[?]"]`, so
a parse failure of the located substring does *not* fall back to line-based
extraction, refuting the claim as stated. -/
theorem C3_parse_failure_counterexample :
    firstBracketMatch "[?]".data = some "[?]".data ∧
    jsonParse "[?]" = none ∧
    parseCompletionResponse "[?]" = [] ∧
    fallbackLines "[?]" = ["[?]"] ∧
    ([] : List String) ≠ ["[?]"] :=
  ⟨by decide, rfl, by decide, by decide, by decide⟩

/-- **C3 (amended)** — For every raw text in which no JSON-array-shaped
substring is found, the Response Parser falls back to line-based
extraction: it strips leading/trailing decoration characters from each
line, drops empty lines, and returns at most the first 5 surviving lines in
their original order (the result is a sublist of the cleaned lines).  When
a substring *is* located but fails to parse as JSON, the exception lands in
the catch and the parser returns the empty list instead of the line-based
fallback. -/
theorem C3_fallback_only_without_match :
    (∀ raw : String, firstBracketMatch raw.data = none →
      parseCompletionResponse raw = fallbackLines raw ∧
      (parseCompletionResponse raw).length ≤ 5 ∧
      List.Sublist (parseCompletionResponse raw)
        ((splitNewline raw.data).map (fun l => cleanLine (String.mk l)))) ∧
    (∀ (raw : String) (m : List Char), firstBracketMatch raw.data = some m →
      jsonParse (String.mk m) = none → parseCompletionResponse raw = []) := by
  constructor
  · intro raw h
    have he : parseCompletionResponse raw = fallbackLines raw := by
      simp [parseCompletionResponse, tryParseCompletion, h]
    refine ⟨he, ?_, ?_⟩
    · rw [he]
      unfold fallbackLines
      exact List.length_take_le 5 _
    · rw [he]
      unfold fallbackLines
      exact (List.take_sublist 5 _).trans (List.filter_sublist _)
  · intro raw m h1 h2
    simp [parseCompletionResponse, tryParseCompletion, h1, h2]

theorem C3_fallback_only_without_match_witness :
    parseCompletionResponse "x\n- y" = fallbackLines "x\n- y" ∧
    parseCompletionResponse "[%]" = [] :=
  ⟨(C3_fallback_only_without_match.1 "x\n- y" (by decide)).1,
   C3_fallback_only_without_match.2 "[%]" "[%]".data (by decide) rfl⟩

/-- **C4 counterexample** — `"[note] [\"alpha\",\"beta\"]"` contains the
valid JSON array of strings `["alpha","beta"]` embedded in surrounding
prose, yet the parser returns the empty list: the first bracket-substring
is `"[note]"`, which fails to parse, so the embedded array's strings are
not returned, refuting the claim as stated. -/
theorem C4_roundtrip_counterexample :
    jsonParse "[\"alpha\",\"beta\"]" = some (.arr [.str "alpha", .str "beta"]) ∧
    parseCompletionResponse "[note] [\"alpha\",\"beta\"]" = [] ∧
    (["alpha", "beta"] : List String) ≠ [] :=
  ⟨rfl, by decide, by decide⟩

/-- **C4 (amended)** — When the first JSON-array-shaped substring of the
raw text (first `[` to the first `]` after it, spanning newlines) parses as
JSON, the Response Parser returns exactly its string-typed elements in
order, with non-string elements dropped and no cap applied on this path; in
particular, an array embedded in prose is returned whenever no `[` precedes
it and its interior contains no `]`.  (If the located substring fails to
parse, the parser returns the empty list — see the C3 correction.) -/
theorem C4_json_array_path :
    (∀ (raw : String) (m : List Char) (xs : List Json),
      firstBracketMatch raw.data = some m →
      jsonParse (String.mk m) = some (.arr xs) →
      parseCompletionResponse raw = jsonStringElems xs) ∧
    (∀ (pre mid post : List Char) (xs : List Json),
      '[' ∉ pre → ']' ∉ mid →
      jsonParse (String.mk ('[' :: (mid ++ [']']))) = some (.arr xs) →
      parseCompletionResponse (String.mk (pre ++ '[' :: (mid ++ ']' :: post))) =
        jsonStringElems xs) := by
  constructor
  · exact parse_of_located
  · intro pre mid post xs hpre hmid hj
    apply parse_of_located _ ('[' :: (mid ++ [']'])) xs ?_ hj
    have hd : (String.mk (pre ++ '[' :: (mid ++ ']' :: post))).data =
        pre ++ '[' :: (mid ++ ']' :: post) := by simp
    rw [hd, firstBracketMatch_append pre _ hpre]
    simp [firstBracketMatch, upToClose_no_close mid post hmid]

theorem C4_json_array_path_witness :
    parseCompletionResponse (String.mk ("Sure: ".data ++ '[' ::
        ("\"a\", 1, \"b\", true, \"c\", \"d\", \"e\", \"f\"".data ++ ']' :: " done".data))) =
      jsonStringElems [.str "a", .num "1", .str "b", .bool true, .str "c", .str "d",
        .str "e", .str "f"] :=
  C4_json_array_path.2 "Sure: ".data "\"a\", 1, \"b\", true, \"c\", \"d\", \"e\", \"f\"".data
    " done".data
    [.str "a", .num "1", .str "b", .bool true, .str "c", .str "d", .str "e", .str "f"]
    (by decide) (by decide) rfl

/-- **C1 counterexample** — resolving a successful suggest-fix exchange from
an empty transcript leaves the provisional "Analyzing…" message in place
with its placeholder content untouched and *appends* a new message holding
the suggestion: the transcript has two elements whose contents differ, so
the provisional message is not the element replaced and a new message *is*
appended at resolution, refuting the claim for the suggest-fix path. -/
theorem C1_suggest_fix_appends_counterexample :
    ((handleSuggestFix initialUIState "E1" (.ok "FIX")).1.messages.map ChatMessage.content) =
      [ANALYZING_MSG, fixSuccessHtml "E1" "FIX"] ∧
    ANALYZING_MSG ≠ fixSuccessHtml "E1" "FIX" :=
  ⟨by decide, by decide⟩

/-- **C1 (amended)** — On the free-form send and selection-query paths, the
provisional message appended at dispatch is the last transcript element at
resolution and is exactly the element replaced in place (the final
transcript equals `replaceLast` of the dispatch transcript): no new message
is appended at resolution and no other element is touched.  On the
suggest-fix path, by contrast, the provisional message keeps its
placeholder content and the result or failure notice is appended as a new
message after it. -/
theorem C1_resolution_mutation_points :
    (∀ (st : UIState) (r : Except JsError String), jsTrim st.input ≠ "" →
      (handleSend st r).1.messages =
        replaceLast (st.messages ++
          [{ content := jsTrim st.input, isUser := true },
           { content := PROCESSING_MSG, isUser := false }]) (sendResolved r) ∧
      (handleSend st r).1.messages =
        st.messages ++
          [{ content := jsTrim st.input, isUser := true },
           { content := sendResolved r, isUser := false }]) ∧
    (∀ (st : UIState) (sel : String) (r : Except JsError String),
      sel ≠ "" → jsTrim st.widgetInput ≠ "" →
      (widgetAskClick st sel r).1.messages =
        replaceLast (st.messages ++
          [{ content := widgetUserHtml (jsTrim st.widgetInput) sel, isUser := true },
           { content := PROCESSING_MSG, isUser := false }]) (sendResolved r) ∧
      (widgetAskClick st sel r).1.messages =
        st.messages ++
          [{ content := widgetUserHtml (jsTrim st.widgetInput) sel, isUser := true },
           { content := sendResolved r, isUser := false }]) ∧
    (∀ (st : UIState) (errorText : String) (r : Except JsError String), errorText ≠ "" →
      (handleSuggestFix st errorText r).1.messages =
        st.messages ++
          [{ content := ANALYZING_MSG, isUser := false },
           { content := fixResolved errorText r, isUser := false }]) := by
  refine ⟨?_, ?_, ?_⟩
  · intro st r h
    cases r <;>
      simp [handleSend, h, sendResolved, replaceLast_append_pair, replaceLast_concat,
        List.append_assoc]
  · intro st sel r h1 h2
    have hg : (sel = "" || jsTrim st.widgetInput = "") = false := by simp [h1, h2]
    cases r <;>
      simp [widgetAskClick, hg, sendResolved, replaceLast_append_pair, replaceLast_concat,
        List.append_assoc]
  · intro st errorText r h
    cases r <;> simp [handleSuggestFix, h, fixResolved, List.append_assoc]

theorem C1_resolution_mutation_points_witness :
    (handleSend ⟨[], false, "what?", "", []⟩ (.ok "OK1")).1.messages =
      ([] : List ChatMessage) ++
        [{ content := jsTrim "what?", isUser := true },
         { content := sendResolved (.ok "OK1"), isUser := false }] ∧
    (widgetAskClick ⟨[], false, "", "why?", []⟩ "selcode" (.error ⟨"oops"⟩)).1.messages =
      ([] : List ChatMessage) ++
        [{ content := widgetUserHtml (jsTrim "why?") "selcode", isUser := true },
         { content := sendResolved (.error ⟨"oops"⟩), isUser := false }] ∧
    (handleSuggestFix ⟨[], false, "", "", []⟩ "E2" (.error ⟨"down"⟩)).1.messages =
      ([] : List ChatMessage) ++
        [{ content := ANALYZING_MSG, isUser := false },
         { content := fixResolved "E2" (.error ⟨"down"⟩), isUser := false }] :=
  ⟨(C1_resolution_mutation_points.1 ⟨[], false, "what?", "", []⟩ (.ok "OK1") (by decide)).2,
   (C1_resolution_mutation_points.2.1 ⟨[], false, "", "why?", []⟩ "selcode"
     (.error ⟨"oops"⟩) (by decide) (by decide)).2,
   C1_resolution_mutation_points.2.2 ⟨[], false, "", "", []⟩ "E2" (.error ⟨"down"⟩)
     (by decide)⟩
